import Mathlib

/-!
Verification model of the WattCompare backend (src/app.py).

The source is a small Flask application.  We give a shallow embedding of the
parts the specification talks about:

* the unit normalizer inside the OCR route, i.e. the part of
  extract_energy_from_image that runs after pytesseract returned a text:
  lower-case the text, search for the first occurrence of the regular
  expression (\d+\.?\d*)\s*(kwh|kw), and convert kW to annual kWh by
  multiplying with 24 * 365;
* the SQLite-backed appliance store (insert via add_appliance, SELECT * via
  list_appliances, SELECT ... WHERE id IN (?, ?) via compare);
* the compare route, including its total_cost helper, the carbon factor 0.82
  and the recommendation step, whose less-than between a None cost and a
  number raises an uncaught TypeError in Python (modelled as a server error);
* the pagination loop of export_pdf.

Python floats are modelled as rationals (so 0.82 is the exact 82/100); the
digit and whitespace classes of the regular expression are modelled by the
ASCII classes of Char.  The image decoding and the OCR engine itself are
external libraries: the model starts from the text the OCR engine returned.
-/

namespace WattCompare

/-- The two unit tokens the alternation (kwh|kw) can produce.  The Python
regex tries the alternative kwh first, so a text kwh is never read as kw. -/
inductive UnitTok where
  | kwh
  | kw
deriving DecidableEq

/-- Value of a digit string, as Python would parse the digits. -/
def digitsToNat (l : List Char) : Nat :=
  l.foldl (fun n c => 10 * n + (c.toNat - 48)) 0

/-- Python float of the matched number group, with integer digits d1 and
fractional digits d2.  float accepts a trailing dot: float of 12. is 12.0. -/
def pyFloat (d1 d2 : List Char) : ℚ :=
  (digitsToNat d1 : ℚ) + (digitsToNat d2 : ℚ) / (10 : ℚ) ^ d2.length

/-- The digits matched by the leading greedy d+ of the pattern. -/
def intPart (l : List Char) : List Char := l.takeWhile Char.isDigit

/-- The rest of the text after the leading digit run. -/
def afterInt (l : List Char) : List Char := l.dropWhile Char.isDigit

/-- The rest after the optional dot of the pattern.  Taking the dot greedily
is equivalent to Python backtracking here: if the dot is left unconsumed the
match fails anyway, a dot being neither whitespace nor the letter k. -/
def fracInput (l : List Char) : List Char :=
  match afterInt l with
  | '.' :: t => t
  | _ => afterInt l

/-- The digits matched by the trailing d* of the number group. -/
def fracPart (l : List Char) : List Char := (fracInput l).takeWhile Char.isDigit

/-- The rest of the text after the number group and the whitespace run. -/
def afterNumber (l : List Char) : List Char :=
  ((fracInput l).dropWhile Char.isDigit).dropWhile Char.isWhitespace

/-- The alternation kwh|kw, kwh preferred, at the head of the remaining
text.  The match needs no anchor on the right: anything may follow. -/
def matchUnit : List Char → Option UnitTok
  | 'k' :: 'w' :: 'h' :: _ => some UnitTok.kwh
  | 'k' :: 'w' :: _ => some UnitTok.kw
  | _ => none

/-- One attempt of the pattern (\d+\.?\d*)\s*(kwh|kw) anchored at the head
of l, returning the two digit groups and the unit token.  At least one digit,
optional dot, more digits, whitespace, unit.  Greedy maximal munch is
equivalent to the backtracking engine for this pattern because no prefix of a
unit token is a digit, a dot or whitespace. -/
def matchAt (l : List Char) : Option (List Char × List Char × UnitTok) :=
  if (intPart l).isEmpty then none
  else
    match matchUnit (afterNumber l) with
    | some u => some (intPart l, fracPart l, u)
    | none => none

/-- re.search: try the anchored match at each position, left to right, and
return the first success. -/
def searchFrom : List Char → Option (List Char × List Char × UnitTok)
  | [] => none
  | c :: t =>
    match matchAt (c :: t) with
    | some r => some r
    | none => searchFrom t

/-- text.lower() of the OCR output, as the list of its characters. -/
def lowered (s : String) : List Char := s.data.map Char.toLower

/-- The unit normalizer: the tail of extract_energy_from_image, taking the
text the OCR engine produced.  On a match, a kw value is annualized by
24 * 365; a kwh value is returned unchanged; with no match the energy is
absent.  The raw text is returned alongside in every case. -/
def extract_energy_from_text (text : String) : Option ℚ × String :=
  match searchFrom (lowered text) with
  | some (d1, d2, UnitTok.kw) => (some (pyFloat d1 d2 * 24 * 365), text)
  | some (d1, d2, UnitTok.kwh) => (some (pyFloat d1 d2), text)
  | none => (none, text)

/-- One row of the appliances table: id INTEGER PRIMARY KEY AUTOINCREMENT,
name TEXT, energy_kwh REAL (nullable), price REAL, energy_rate REAL,
timestamp DATETIME DEFAULT CURRENT_TIMESTAMP.  The timestamp is an Option so
that the non-null guarantee of the insert path is a statement, not a type
artifact. -/
structure ApplianceRow where
  id : Nat
  name : String
  energy_kwh : Option ℚ
  price : ℚ
  energy_rate : ℚ
  timestamp : Option Nat
deriving DecidableEq

/-- The database: the rows of the appliances table in insertion order, plus
the next value of the AUTOINCREMENT id counter. -/
structure DB where
  rows : List ApplianceRow
  nextId : Nat
deriving DecidableEq

/-- The freshly created database: empty table, ids starting at 1. -/
def initDB : DB := ⟨[], 1⟩

/-- The INSERT of add_appliance: the new row receives the generated id and a
server-side timestamp from the CURRENT_TIMESTAMP default; name, energy_kwh,
price and energy_rate are the bound parameters. -/
def add_appliance (db : DB) (name : String) (energy_kwh : Option ℚ)
    (price energy_rate : ℚ) (t : Nat) : DB :=
  ⟨db.rows ++ [⟨db.nextId, name, energy_kwh, price, energy_rate, some t⟩], db.nextId + 1⟩

/-- The energy value the add_appliance route computes: the OCR extraction of
the uploaded image when one is present, otherwise None.  The image is
represented by the text the OCR engine reads off it. -/
def ocr_of (img : Option String) : Option ℚ :=
  match img with
  | some s => (extract_energy_from_text s).1
  | none => none

/-- The add_appliance route: run OCR on the optional image, then insert. -/
def add_appliance_route (db : DB) (name : String) (img : Option String)
    (price energy_rate : ℚ) (t : Nat) : DB :=
  add_appliance db name (ocr_of img) price energy_rate t

/-- The list_appliances route: SELECT * FROM appliances, all rows in table
order. -/
def list_appliances (db : DB) : List ApplianceRow := db.rows

/-- SELECT * FROM appliances WHERE id IN (?, ?): every row whose id equals
one of the two bound ids, each matching row returned once, in table order. -/
def rows_by_ids (db : DB) (i1 i2 : Nat) : List ApplianceRow :=
  db.rows.filter (fun r => r.id == i1 || r.id == i2)

/-- The total_cost helper inside the compare route.  The row tuple is
indexed a[2] and a[4], i.e. energy_kwh and energy_rate; the cost is their
product when both are truthy (not None and nonzero), else None. -/
def total_cost (a : ApplianceRow) : Option ℚ :=
  match a.energy_kwh with
  | some e => if e ≠ 0 ∧ a.energy_rate ≠ 0 then some (e * a.energy_rate) else none
  | none => none

/-- cost * 0.82 if cost else None: the carbon estimate, absent when the cost
is None or zero. -/
def carbon_of (c : Option ℚ) : Option ℚ :=
  match c with
  | some v => if v ≠ 0 then some (v * (82 / 100)) else none
  | none => none

/-- The JSON object the compare route returns on success. -/
structure ComparePayload where
  nameA : String
  nameB : String
  costA : Option ℚ
  costB : Option ℚ
  carbonA : Option ℚ
  carbonB : Option ℚ
  recommended : String
deriving DecidableEq

/-- Outcome of the compare route: 400 for a bad id list, 404 when the query
does not return exactly two rows, a 500 server failure when an uncaught
exception escapes the handler, or the 200 payload. -/
inductive Resp where
  | badRequest
  | notFound
  | serverError
  | ok (p : ComparePayload)
deriving DecidableEq

/-- The compare route.  The id list must have exactly two entries (an empty
or wrong-length list is a 400); the IN-query must return exactly two rows
(else 404).  Costs and carbons are computed as in the source; the
recommendation a1 if cost1 less than cost2 else a2 compares two Python
values with the less-than operator, which raises an uncaught TypeError when
either cost is None - the route then surfaces a generic server failure.  The
route never writes, so the database is returned unchanged in every case. -/
def compare_route (db : DB) (ids : List Nat) : Resp × DB :=
  match ids with
  | [i1, i2] =>
    match rows_by_ids db i1 i2 with
    | [a1, a2] =>
      match total_cost a1, total_cost a2 with
      | some c1, some c2 =>
        (Resp.ok ⟨a1.name, a2.name, some c1, some c2,
          carbon_of (some c1), carbon_of (some c2),
          (if c1 < c2 then a1 else a2).name⟩, db)
      | _, _ => (Resp.serverError, db)
    | _ => (Resp.notFound, db)
  | _ => (Resp.badRequest, db)

/-- The pagination loop of export_pdf, one step per record: draw the line at
the current y, move down 20, and when y drops below 100 close the page
(showPage) and restart at y = 800.  The state is the current y, the number
of closed pages, and whether the current page holds any content (the save
call only emits the final page when it does). -/
def pdf_run : Nat → Int × Nat × Bool → Int × Nat × Bool
  | 0, s => s
  | n + 1, (y, closed, _) =>
    if y - 20 < 100 then pdf_run n (800, closed + 1, false)
    else pdf_run n (y - 20, closed, true)

/-- Page count of the exported PDF for n records: the title is drawn on the
first page at y = 800, the record lines start at y = 770, and save emits the
last page only if something was drawn on it. -/
def pdf_pages (n : Nat) : Nat :=
  match pdf_run n (770, 0, true) with
  | (_, closed, content) => closed + (if content then 1 else 0)

/-- The export_pdf route draws one line per stored record, in table order,
so its page count is determined by the number of rows. -/
def export_pdf_pages (db : DB) : Nat := pdf_pages db.rows.length

/-- The states the store can reach: the fresh database, followed by any
sequence of add_appliance route calls.  No other route writes to the store
(there are no update or delete endpoints). -/
inductive Reachable : DB → Prop where
  | init : Reachable initDB
  | step (db : DB) (name : String) (img : Option String) (price energy_rate : ℚ)
      (t : Nat) : Reachable db → Reachable (add_appliance_route db name img price energy_rate t)

/-- Row with annual energy 100 kWh and rate 2. -/
def rowA : ApplianceRow := ⟨1, "A", some 100, 100, 2, some 0⟩

/-- Row with annual energy 80 kWh and rate 2. -/
def rowB : ApplianceRow := ⟨2, "B", some 80, 80, 2, some 0⟩

/-- Row with truthy price 100 and rate 2 but no extracted energy. -/
def rowN : ApplianceRow := ⟨3, "N", none, 100, 2, some 0⟩

/-- A store holding rowA and rowB. -/
def dbAB : DB := ⟨[rowA, rowB], 3⟩

/-- A store holding rowN (absent energy) and rowB. -/
def dbNB : DB := ⟨[rowN, rowB], 4⟩

/-- A store holding 40 records. -/
def db40 : DB := ⟨List.replicate 40 ⟨1, "x", none, 1, 1, some 0⟩, 2⟩

/-- The store reached by one add_appliance call: one row with id 1. -/
def db1 : DB := add_appliance_route initDB "fridge" none 10 2 7

/-! Sanity checks of the regex model and the pagination model on concrete
inputs: leftmost match, preference of kwh over kw, trailing dot, a text
without a match, and the page-break boundary between 34 and 35 records. -/

lemma searchFrom_checks :
    searchFrom (lowered ("ab 2.5 KW")) = some (['2'], ['5'], UnitTok.kw)
    ∧ searchFrom (lowered ("250KWH")) = some (['2', '5', '0'], [], UnitTok.kwh)
    ∧ searchFrom (lowered ("1..5kw")) = some (['5'], [], UnitTok.kw)
    ∧ searchFrom (lowered ("hello")) = none
    ∧ searchFrom (lowered ("12.kw")) = some (['1', '2'], [], UnitTok.kw) := by
  refine ⟨by decide, by decide, by decide, by decide, by decide⟩

lemma pdf_pages_checks :
    pdf_pages 0 = 1 ∧ pdf_pages 34 = 1 ∧ pdf_pages 35 = 2 ∧ pdf_pages 40 = 2 := by
  refine ⟨by decide, by decide, by decide, by decide⟩

lemma pyFloat_250 : pyFloat ['2', '5', '0'] [] = 250 := by
  have h1 : digitsToNat ['2', '5', '0'] = 250 := by decide
  have h2 : digitsToNat ([] : List Char) = 0 := by decide
  rw [pyFloat, h1, h2]
  norm_num

/-! Helper lemmas about the regular-expression search. -/

lemma matchAt_nil : matchAt [] = none := rfl

/-- If the anchored match fails at every position before i and succeeds at
position i, the search returns the match found at i. -/
lemma searchFrom_eq_of_first (l : List Char) :
    ∀ (i : Nat) (r : List Char × List Char × UnitTok),
      (∀ j, j < i → matchAt (l.drop j) = none) →
      matchAt (l.drop i) = some r → searchFrom l = some r := by
  induction l with
  | nil =>
    intro i r _ hmatch
    rw [List.drop_nil, matchAt_nil] at hmatch
    exact absurd hmatch (by simp)
  | cons c t ih =>
    intro i r hfirst hmatch
    cases i with
    | zero =>
      rw [List.drop_zero] at hmatch
      simp only [searchFrom]
      rw [hmatch]
    | succ i =>
      have h0 : matchAt (c :: t) = none := by simpa using hfirst 0 (Nat.succ_pos _)
      simp only [searchFrom]
      rw [h0]
      exact ih i r (fun j hj => by simpa using hfirst (j + 1) (Nat.succ_lt_succ hj))
        (by simpa using hmatch)

/-- If the anchored match fails at every position, the search fails. -/
lemma searchFrom_eq_none (l : List Char)
    (h : ∀ j, j < l.length → matchAt (l.drop j) = none) : searchFrom l = none := by
  induction l with
  | nil => rfl
  | cons c t ih =>
    have h0 : matchAt (c :: t) = none := by simpa using h 0 (by simp)
    simp only [searchFrom]
    rw [h0]
    exact ih (fun j hj => by simpa using h (j + 1) (by simpa using Nat.succ_lt_succ hj))

/-- The value Python float returns on the matched groups is non-negative:
the pattern has no sign, so the groups are plain digit strings. -/
lemma pyFloat_nonneg (d1 d2 : List Char) : 0 ≤ pyFloat d1 d2 := by
  unfold pyFloat
  positivity

/-- Whatever energy value the unit normalizer returns is non-negative. -/
lemma extract_nonneg (text : String) (v : ℚ)
    (h : (extract_energy_from_text text).1 = some v) : 0 ≤ v := by
  unfold extract_energy_from_text at h
  rcases hs : searchFrom (lowered text) with _ | ⟨d1, d2, u⟩ <;> rw [hs] at h
  · simp at h
  · cases u <;> simp only [] at h <;> simp at h <;> rw [← h]
    · exact pyFloat_nonneg d1 d2
    · exact mul_nonneg (mul_nonneg (pyFloat_nonneg d1 d2) (by norm_num)) (by norm_num)

/-! The claims. -/

/-- Claim C1: for every input text whose lower-casing has its first regex
match at position i, with number groups d1.d2 and unit token u, the route
returns the matched number annualized by 24 * 365 when u is kw and the
matched number unchanged when u is kwh; only that first match in document
order matters. -/
theorem extract_converts_first_matched_unit (text : String) (i : Nat)
    (d1 d2 : List Char) (u : UnitTok)
    (hfirst : ∀ j, j < i → matchAt ((lowered text).drop j) = none)
    (hmatch : matchAt ((lowered text).drop i) = some (d1, d2, u)) :
    (u = UnitTok.kw →
      (extract_energy_from_text text).1 = some (pyFloat d1 d2 * 24 * 365)) ∧
    (u = UnitTok.kwh →
      (extract_energy_from_text text).1 = some (pyFloat d1 d2)) := by
  have hs := searchFrom_eq_of_first (lowered text) i (d1, d2, u) hfirst hmatch
  constructor <;> rintro rfl <;> simp [extract_energy_from_text, hs]

/-- Witness for C1 on the text AB 2.5 KW: the first match is at position 3,
the unit is kw, and the returned energy is 2.5 annualized. -/
theorem extract_converts_first_matched_unit_witness :
    (extract_energy_from_text ("AB 2.5 KW")).1 = some (pyFloat ['2'] ['5'] * 24 * 365) :=
  (extract_converts_first_matched_unit ("AB 2.5 KW") 3 ['2'] ['5'] UnitTok.kw
    (by decide) (by decide)).1 rfl

/-- Claim C4: when the pattern matches nowhere in the lower-cased text, the
unit normalizer returns an absent energy together with the original raw
text; the function is total, so no error is raised. -/
theorem extract_no_match_returns_absent (text : String)
    (h : ∀ j, j < (lowered text).length → matchAt ((lowered text).drop j) = none) :
    extract_energy_from_text text = (none, text) := by
  have hs := searchFrom_eq_none (lowered text) h
  simp [extract_energy_from_text, hs]

/-- Witness for C4 on a text with no number-unit pattern. -/
theorem extract_no_match_returns_absent_witness :
    extract_energy_from_text ("hello world") = (none, "hello world") :=
  extract_no_match_returns_absent ("hello world") (by decide)

/-- Claim C7: the energy value the OCR route extracts is absent or
non-negative, and in every reachable store state the energy_kwh field of
every stored row is absent or non-negative, never negative. -/
theorem stored_energy_kwh_nonneg :
    (∀ (text : String) (v : ℚ), (extract_energy_from_text text).1 = some v → 0 ≤ v)
    ∧ (∀ db : DB, Reachable db → ∀ r ∈ db.rows, ∀ v : ℚ, r.energy_kwh = some v → 0 ≤ v) := by
  constructor
  · exact extract_nonneg
  · intro db hdb
    induction hdb with
    | init => intro r hr; simp [initDB] at hr
    | step db name img price energy_rate t hprev ih =>
      intro r hr v hv
      rw [show (add_appliance_route db name img price energy_rate t).rows
          = db.rows ++ [⟨db.nextId, name, ocr_of img, price, energy_rate, some t⟩] from rfl] at hr
      rcases List.mem_append.mp hr with hmem | hmem
      · exact ih r hmem v hv
      · rw [List.mem_singleton.mp hmem] at hv
        rcases himg : img with _ | s
        · rw [himg] at hv
          simp [ocr_of] at hv
        · rw [himg] at hv
          exact extract_nonneg s v hv

/-- Witness for C7: the value extracted from the text 250KWH is the
non-negative matched number. -/
theorem stored_energy_kwh_nonneg_witness : (0 : ℚ) ≤ pyFloat ['2', '5', '0'] [] :=
  stored_energy_kwh_nonneg.1 ("250KWH") (pyFloat ['2', '5', '0'] []) rfl

lemma total_cost_rowA : total_cost rowA = some 200 := by
  norm_num [total_cost, rowA]

lemma total_cost_rowB : total_cost rowB = some 160 := by
  norm_num [total_cost, rowB]

/-- Claim C2 as stated is false on the code: total_cost reads the row tuple
at indexes 2 and 4, which are energy_kwh and energy_rate, not price and
energy_rate.  rowN has truthy price 100 and rate 2, so the claim demands
cost 200, but its energy_kwh is absent and the code returns None. -/
theorem cost_is_not_price_times_rate :
    rowN.price = 100 ∧ rowN.energy_rate = 2 ∧ rowN.price ≠ 0 ∧ rowN.energy_rate ≠ 0 ∧
    total_cost rowN = none ∧ total_cost rowN ≠ some (rowN.price * rowN.energy_rate) := by
  refine ⟨rfl, rfl, by decide, by decide, rfl, by decide⟩

/-- Claim C2 amended: the annual cost of a record is energy_kwh multiplied
by energy_rate when both are truthy (present and nonzero), absent otherwise;
the carbon estimate is cost times 0.82 when the cost is present, absent
otherwise.  For records A (energy_kwh 100, rate 2) and B (energy_kwh 80,
rate 2): cost_A 200, cost_B 160, carbon_A 164, carbon_B 131.2. -/
theorem cost_is_energy_times_rate :
    (∀ (a : ApplianceRow) (e : ℚ), a.energy_kwh = some e → e ≠ 0 → a.energy_rate ≠ 0 →
      total_cost a = some (e * a.energy_rate) ∧
      carbon_of (total_cost a) = some (e * a.energy_rate * (82 / 100)))
    ∧ (∀ a : ApplianceRow,
        a.energy_kwh = none ∨ a.energy_kwh = some 0 ∨ a.energy_rate = 0 →
        total_cost a = none ∧ carbon_of (total_cost a) = none)
    ∧ total_cost rowA = some 200 ∧ total_cost rowB = some 160
    ∧ carbon_of (total_cost rowA) = some 164
    ∧ carbon_of (total_cost rowB) = some (656 / 5) := by
  refine ⟨?_, ?_, total_cost_rowA, total_cost_rowB, ?_, ?_⟩
  · intro a e he h0 hr
    have hcost : total_cost a = some (e * a.energy_rate) := by
      rw [total_cost, he]
      simp [h0, hr]
    refine ⟨hcost, ?_⟩
    rw [hcost, carbon_of]
    simp [mul_ne_zero h0 hr]
  · intro a ha
    have hcost : total_cost a = none := by
      rcases ha with h | h | h
      · rw [total_cost, h]
      · rw [total_cost, h]; simp
      · rw [total_cost]
        rcases a.energy_kwh with _ | e
        · rfl
        · simp [h]
    rw [hcost]
    exact ⟨rfl, rfl⟩
  · rw [total_cost_rowA, carbon_of]
    norm_num
  · rw [total_cost_rowB, carbon_of]
    norm_num

/-- Witness for the amended C2 at rowA: cost 100 * 2, carbon with the 0.82
factor on top. -/
theorem cost_is_energy_times_rate_witness :
    total_cost rowA = some (100 * rowA.energy_rate) ∧
    carbon_of (total_cost rowA) = some (100 * rowA.energy_rate * (82 / 100)) :=
  cost_is_energy_times_rate.1 rowA 100 rfl (by decide) (by decide)

/-- Claim C3: when the IN-query returns the two rows and both annual costs
are present, the compare route answers 200 and recommends the row with the
strictly lower cost. -/
theorem compare_recommends_lower_cost (db : DB) (i1 i2 : Nat) (a1 a2 : ApplianceRow)
    (c1 c2 : ℚ) (hrows : rows_by_ids db i1 i2 = [a1, a2])
    (h1 : total_cost a1 = some c1) (h2 : total_cost a2 = some c2) :
    ∃ p : ComparePayload, compare_route db [i1, i2] = (Resp.ok p, db) ∧
      (c1 < c2 → p.recommended = a1.name) ∧ (c2 < c1 → p.recommended = a2.name) := by
  refine ⟨⟨a1.name, a2.name, some c1, some c2, carbon_of (some c1), carbon_of (some c2),
    (if c1 < c2 then a1 else a2).name⟩, ?_, ?_, ?_⟩
  · simp [compare_route, hrows, h1, h2]
  · intro h
    simp [if_pos h]
  · intro h
    simp [if_neg (lt_asymm h)]

/-- Witness for C3 on dbAB: B costs 160 against 200 for A, so B is
recommended. -/
theorem compare_recommends_lower_cost_witness :
    ∃ p : ComparePayload, compare_route dbAB [1, 2] = (Resp.ok p, dbAB) ∧
      p.recommended = "B" := by
  obtain ⟨p, hp, _, hrec⟩ := compare_recommends_lower_cost dbAB 1 2 rowA rowB 200 160
    (by decide) total_cost_rowA total_cost_rowB
  exact ⟨p, hp, hrec (by norm_num)⟩

/-- Claim C6: inserting a record through the add-appliance route and then
listing returns a row carrying exactly the inserted name, energy, price and
rate, with the timestamp assigned at insertion, which is not null. -/
theorem add_then_list_returns_record (db : DB) (name : String) (img : Option String)
    (price energy_rate : ℚ) (t : Nat) :
    ∃ r ∈ list_appliances (add_appliance_route db name img price energy_rate t),
      r.name = name ∧ r.energy_kwh = ocr_of img ∧ r.price = price ∧
      r.energy_rate = energy_rate ∧ r.timestamp = some t := by
  refine ⟨⟨db.nextId, name, ocr_of img, price, energy_rate, some t⟩, ?_, rfl, rfl, rfl, rfl, rfl⟩
  simp [list_appliances, add_appliance_route, add_appliance]

/-- Claim C5: the compare route answers 400 exactly when the id list does
not have two entries; with two ids it answers 404 exactly when the IN-query
does not return two rows; when two ids retrieve two rows, neither client
error is produced. -/
theorem compare_route_error_codes (db : DB) (ids : List Nat) :
    (ids.length ≠ 2 → compare_route db ids = (Resp.badRequest, db))
    ∧ (∀ i1 i2, ids = [i1, i2] → (rows_by_ids db i1 i2).length ≠ 2 →
        compare_route db ids = (Resp.notFound, db))
    ∧ (∀ i1 i2, ids = [i1, i2] → (rows_by_ids db i1 i2).length = 2 →
        (compare_route db ids).1 ≠ Resp.badRequest ∧
        (compare_route db ids).1 ≠ Resp.notFound) := by
  refine ⟨?_, ?_, ?_⟩
  · intro hlen
    match ids, hlen with
    | [], _ => rfl
    | [_], _ => rfl
    | [_, _], h => exact absurd rfl h
    | _ :: _ :: _ :: _, _ => rfl
  · rintro i1 i2 rfl hlen
    match hr : rows_by_ids db i1 i2, hlen with
    | [], _ => simp [compare_route, hr]
    | [_], _ => simp [compare_route, hr]
    | [_, _], h => exact absurd rfl h
    | _ :: _ :: _ :: _, _ => simp [compare_route, hr]
  · rintro i1 i2 rfl hlen
    match hr : rows_by_ids db i1 i2, hlen with
    | [a1, a2], _ =>
      rcases h1 : total_cost a1 with _ | c1 <;> rcases h2 : total_cost a2 with _ | c2 <;>
        simp [compare_route, hr, h1, h2]

/-- Witness for C5 on dbAB: one id gives 400, two unknown ids give 404, and
the two stored ids give neither. -/
theorem compare_route_error_codes_witness :
    compare_route dbAB [7] = (Resp.badRequest, dbAB) ∧
    compare_route dbAB [5, 6] = (Resp.notFound, dbAB) ∧
    (compare_route dbAB [1, 2]).1 ≠ Resp.badRequest ∧
    (compare_route dbAB [1, 2]).1 ≠ Resp.notFound :=
  ⟨(compare_route_error_codes dbAB [7]).1 (by decide),
   (compare_route_error_codes dbAB [5, 6]).2.1 5 6 rfl (by decide),
   (compare_route_error_codes dbAB [1, 2]).2.2 1 2 rfl (by decide)⟩

/-- Claim C8: the PDF export over an empty store is a single page (only the
title is drawn), and over 40 records at least two pages, the break firing
once y, decreasing by 20 from 770, drops below 100. -/
theorem export_pdf_page_counts :
    (∀ db : DB, db.rows.length = 0 → export_pdf_pages db = 1)
    ∧ (∀ db : DB, db.rows.length = 40 → 2 ≤ export_pdf_pages db) := by
  constructor <;> intro db h <;> rw [export_pdf_pages, h] <;> decide

/-- Witness for C8: the empty store exports one page, a 40-record store at
least two. -/
theorem export_pdf_page_counts_witness :
    export_pdf_pages initDB = 1 ∧ 2 ≤ export_pdf_pages db40 :=
  ⟨export_pdf_page_counts.1 initDB rfl, export_pdf_page_counts.2 db40 (by decide)⟩

/-- Claim C9: when the two rows are retrieved but one of the costs is None,
the recommendation step compares None against a number, the TypeError
escapes, and the route surfaces a generic server failure; the store is
returned unchanged. -/
theorem compare_crashes_on_absent_cost (db : DB) (i1 i2 : Nat) (a1 a2 : ApplianceRow)
    (hrows : rows_by_ids db i1 i2 = [a1, a2])
    (habs : total_cost a1 = none ∨ total_cost a2 = none) :
    compare_route db [i1, i2] = (Resp.serverError, db) := by
  rcases h1 : total_cost a1 with _ | c1 <;> rcases h2 : total_cost a2 with _ | c2 <;>
    simp [compare_route, hrows, h1, h2]
  rcases habs with h | h
  · rw [h1] at h
    exact absurd h (by simp)
  · rw [h2] at h
    exact absurd h (by simp)

/-- Witness for C9 on dbNB: rowN has no energy value, so its cost is None
and comparing the two ids crashes the route. -/
theorem compare_crashes_on_absent_cost_witness :
    compare_route dbNB [3, 2] = (Resp.serverError, dbNB) :=
  compare_crashes_on_absent_cost dbNB 3 2 rowN rowB (by decide) (Or.inl rfl)

/-! Helper lemmas for C10: ids are unique in every reachable store. -/

/-- In a reachable store every row id is below the id counter and the ids
are pairwise distinct (the AUTOINCREMENT primary key). -/
lemma reachable_ids_nodup (db : DB) (h : Reachable db) :
    (∀ r ∈ db.rows, r.id < db.nextId) ∧ (db.rows.map (fun r => r.id)).Nodup := by
  induction h with
  | init => simp [initDB]
  | step db name img price energy_rate t hprev ih =>
    obtain ⟨hbound, hnodup⟩ := ih
    rw [show (add_appliance_route db name img price energy_rate t).rows
        = db.rows ++ [⟨db.nextId, name, ocr_of img, price, energy_rate, some t⟩] from rfl]
    rw [show (add_appliance_route db name img price energy_rate t).nextId
        = db.nextId + 1 from rfl]
    constructor
    · intro r hr
      rcases List.mem_append.mp hr with hmem | hmem
      · exact Nat.lt_succ_of_lt (hbound r hmem)
      · rw [List.mem_singleton.mp hmem]
        exact Nat.lt_succ_self _
    · rw [List.map_append]
      refine List.Nodup.append hnodup (List.nodup_singleton _) ?_
      intro x hx hx'
      rw [List.map_singleton, List.mem_singleton] at hx'
      obtain ⟨r, hr, hid⟩ := List.mem_map.mp hx
      rw [hx'] at hid
      exact absurd (hid ▸ hbound r hr) (lt_irrefl _)

/-- When the row ids are pairwise distinct, the IN-query with both ids equal
returns at most one row. -/
lemma filter_same_id_length_le_one (rows : List ApplianceRow) (i : Nat)
    (h : (rows.map (fun r => r.id)).Nodup) :
    (rows.filter (fun r => r.id == i || r.id == i)).length ≤ 1 := by
  induction rows with
  | nil => simp
  | cons a t ih =>
    rw [List.map_cons, List.nodup_cons] at h
    obtain ⟨hna, hnd⟩ := h
    rw [List.filter_cons]
    by_cases hid : a.id = i
    · have hnil : t.filter (fun r => r.id == i || r.id == i) = [] := by
        rw [List.filter_eq_nil_iff]
        intro r hr hcontra
        have hri : r.id = i := by
          rcases Bool.or_eq_true_iff.mp hcontra with hx | hx <;> exact beq_iff_eq.mp hx
        exact hna (List.mem_map.mpr ⟨r, hr, hri.trans hid.symm⟩)
      rw [if_pos (by simp [hid]), hnil]
      simp
    · rw [if_neg (by simp [hid])]
      exact ih hnd

/-- Claim C10: in a reachable store, comparing with the same id twice, even
one that resolves, yields 404: the IN-query returns each matching row once,
so only one row comes back where the handler demands two. -/
theorem compare_same_id_twice_not_found (db : DB) (i : Nat) (h : Reachable db)
    (hres : ∃ r ∈ db.rows, r.id = i) :
    compare_route db [i, i] = (Resp.notFound, db) := by
  obtain ⟨r, hr, hid⟩ := hres
  have hle : (rows_by_ids db i i).length ≤ 1 :=
    filter_same_id_length_le_one db.rows i (reachable_ids_nodup db h).2
  have hmem : r ∈ rows_by_ids db i i := by
    rw [rows_by_ids, List.mem_filter]
    exact ⟨hr, by simp [hid]⟩
  have hpos : 0 < (rows_by_ids db i i).length :=
    List.length_pos.mpr (List.ne_nil_of_mem hmem)
  obtain ⟨a, ha⟩ := List.length_eq_one.mp (le_antisymm hle hpos)
  simp [compare_route, ha]

/-- Witness for C10: the one-row store, asked to compare id 1 with id 1,
answers 404 although id 1 resolves. -/
theorem compare_same_id_twice_not_found_witness :
    compare_route db1 [1, 1] = (Resp.notFound, db1) :=
  compare_same_id_twice_not_found db1 1
    (Reachable.step initDB "fridge" none 10 2 7 Reachable.init)
    ⟨⟨1, "fridge", none, 10, 2, some 7⟩, by decide, rfl⟩

end WattCompare
